import Mathlib

/-!
Verification development for the MosPay payment-gateway core.

The Python modules `payment_processor.py`, `security_monitor.py` and
`alert_monitor.py` are shallowly embedded below: database rows become
structures, the database session becomes explicit list-valued state,
timestamps become integer seconds, SQL `Float`/`Numeric` columns become
rationals, and fallible effects (PostgreSQL rule functions, the outbound
HTTP call, the blacklist query) become explicit outcome parameters of
`Except`/inductive type.  Storage faults are modelled only where a claim
is about them (the IP-blacklist lookup and the dispatcher's first
commit); elsewhere the no-exception path of each `try` block is embedded.
Writes to the append-only `security_events` audit table
(`log_security_event`) have no effect on any behaviour studied here and
are not modelled.
-/

namespace Mospay

/-- Replace the first element satisfying `p` by `f` of it, as SQLAlchemy
mutates the single row returned by `.first()`. -/
def updateFirst (p : α → Bool) (f : α → α) : List α → List α
  | [] => []
  | x :: xs => if p x then f x :: xs else x :: updateFirst p f xs

/-! ### Fraud scorer (`SecurityMonitor.analyze_transaction_fraud`) -/

/-- The inputs `analyze_transaction_fraud` reads: the transaction's
`amount` column (nullable), the count returned by the rapid-transaction
query over the preceding 300 s, `datetime.utcnow().hour`, and
`(datetime.utcnow() - client.created_at).days` (none when the client
row is missing). -/
structure FraudInput where
  amount : Option ℚ
  recentCount : Nat
  currentHour : Nat
  clientAgeDays : Option Nat

/-- `transaction.amount and transaction.amount > 10000` (Python
truthiness: a null or zero amount short-circuits to false). -/
def highAmountCond (inp : FraudInput) : Bool :=
  match inp.amount with
  | some a => a ≠ 0 && a > 10000
  | none => false

/-- `recent_transactions > 5`. -/
def rapidCond (inp : FraudInput) : Bool :=
  inp.recentCount > 5

/-- `current_hour >= 22 or current_hour <= 6`. -/
def unusualHoursCond (inp : FraudInput) : Bool :=
  inp.currentHour ≥ 22 || inp.currentHour ≤ 6

/-- `client and (utcnow() - client.created_at).days < 7`. -/
def newClientCond (inp : FraudInput) : Bool :=
  match inp.clientAgeDays with
  | some d => d < 7
  | none => false

/-- The `fraud_rules` weight table of `_load_fraud_rules`. -/
def weightOf : String → ℚ
  | "high_amount" => 3/10
  | "rapid_transactions" => 4/10
  | "unusual_hours" => 2/10
  | "new_client" => 3/10
  | _ => 0

/-- `triggered_rules`, accumulated in the source's evaluation order. -/
def triggeredRules (inp : FraudInput) : List String :=
  (if highAmountCond inp then ["high_amount"] else []) ++
  (if rapidCond inp then ["rapid_transactions"] else []) ++
  (if unusualHoursCond inp then ["unusual_hours"] else []) ++
  (if newClientCond inp then ["new_client"] else [])

/-- The uncapped `risk_score` accumulator. -/
def rawRiskScore (inp : FraudInput) : ℚ :=
  (if highAmountCond inp then (3:ℚ)/10 else 0) +
  (if rapidCond inp then (4:ℚ)/10 else 0) +
  (if unusualHoursCond inp then (2:ℚ)/10 else 0) +
  (if newClientCond inp then (3:ℚ)/10 else 0)

/-- The persisted `FraudDetection` row together with the optional
severity of the security event emitted for high-risk scores. -/
structure FraudAssessment where
  risk_score : ℚ
  fraud_rules_triggered : List String
  status : String
  eventSeverity : Option String
deriving DecidableEq, Repr

/-- `SecurityMonitor.analyze_transaction_fraud`: four weighted rules,
the stored score capped at 1.0, `status = 'pending' if risk_score > 0.5
else 'approved'`, and a security event of severity `'high' if
risk_score > 0.8 else 'medium'` when `risk_score > 0.5`. -/
def analyze_transaction_fraud (inp : FraudInput) : FraudAssessment :=
  let risk_score := rawRiskScore inp
  { risk_score := min risk_score 1
    fraud_rules_triggered := triggeredRules inp
    status := if risk_score > 1/2 then "pending" else "approved"
    eventSeverity :=
      if risk_score > 1/2 then
        some (if risk_score > 4/5 then "high" else "medium")
      else none }

/-! ### IP blacklist (`SecurityMonitor.check_ip_blacklist`) -/

/-- An `ip_blacklist` row (the fields the check reads). -/
structure IPEntry where
  ip_address : String
  reason : String
  is_active : Bool
  expires_at : Option Int

/-- `IPBlacklist.query.filter_by(ip_address=…, is_active=True).first()`. -/
def ipFirstActive (entries : List IPEntry) (ip : String) : Option IPEntry :=
  entries.find? (fun e => e.ip_address == ip && e.is_active)

/-- `SecurityMonitor.check_ip_blacklist`: the storage layer is passed as
`Except String (List IPEntry)` — a `.error` value is the query raising,
which the source's `except` clause turns into `(False, "Blacklist check
failed")`.  Returns (blocked?, message, resulting storage). -/
def check_ip_blacklist (store : Except String (List IPEntry))
    (ip : String) (now : Int) :
    Bool × String × Except String (List IPEntry) :=
  match store with
  | .error e => (false, "Blacklist check failed", .error e)
  | .ok entries =>
    match ipFirstActive entries ip with
    | none => (false, "IP not blacklisted", .ok entries)
    | some entry =>
      match entry.expires_at with
      | some exp =>
          if now > exp then
            (false, "Block expired",
             .ok (updateFirst (fun e => e.ip_address == ip && e.is_active)
                   (fun e => { e with is_active := false }) entries))
          else (true, "IP blocked: " ++ entry.reason, .ok entries)
      | none => (true, "IP blocked: " ++ entry.reason, .ok entries)

/-! ### Routing dispatcher (`PaymentProcessor`) -/

/-- JSON values as handled by the dispatcher (Python dicts become
association lists; the PG rule functions build objects only, via
`json_build_object`, so rule results are `obj` values). -/
inductive Json where
  | null
  | bool (b : Bool)
  | num (n : Int)
  | str (s : String)
  | arr (elems : List Json)
  | obj (fields : List (String × Json))

/-- Python `dict.get(key)` (None when absent or not a dict). -/
def Json.get? : Json → String → Option Json
  | .obj fields, key => fields.lookup key
  | _, _ => none

/-- Python `dict.get(key, default)`. -/
def Json.getD (j : Json) (key : String) (dflt : Json) : Json :=
  (j.get? key).getD dflt

/-- Transaction lifecycle column. -/
inductive TxStatus where
  | pending
  | completed
  | failed
deriving DecidableEq, Repr

/-- Outcome of running one of the PostgreSQL rule functions: either the
call raised inside the database, or it produced the (optional) `results`
row — `none` standing for no row / no `results` attribute. -/
inductive PgOutcome where
  | raises (msg : String)
  | returns (res : Option Json)

/-- `PaymentProcessor.call_pg_function`: both the `except` clause and a
missing row return `None` to the caller; an exception never escapes. -/
def call_pg_function : PgOutcome → Option Json
  | .raises _ => none
  | .returns res => res

/-- `PaymentProcessor.call_pg_response_function` has the same
error-swallowing shape. -/
def call_pg_response_function : PgOutcome → Option Json
  | .raises _ => none
  | .returns res => res

/-- A completed HTTP response from the provider, with `data` already
parsed (JSON body or raw text wrapped as a string). -/
structure HttpResponse where
  status_code : Int
  data : Json

/-- `PaymentProcessor.call_microservice`: the transport outcome of
`requests.post` is the argument; a `RequestException` is captured as a
synthetic `{status_code: 500, data: {error: …}}` value, never raised. -/
def call_microservice (outcome : Except String HttpResponse) : Json :=
  match outcome with
  | .ok resp => .obj [("status_code", .num resp.status_code),
                      ("data", resp.data)]
  | .error e => .obj [("status_code", .num 500),
                      ("data", .obj [("error",
                        .str ("Microservice call failed: " ++ e))])]

/-- The synthetic envelope built by `process_payment_request`'s `except`
clause. -/
def errorEnvelope (payload : Json) (msg : String) : Json :=
  .obj [("status", .str "500"),
        ("type", .str "string"),
        ("message", .str ("Payment processing error: " ++ msg)),
        ("version", .str "1.0.0"),
        ("action", .str "OUTPUT"),
        ("command", payload.getD "f002" (.str "unknown"))]

/-- What `process_payment_request` leaves behind: the transaction row's
terminal `status` and `response_payload`, and the value returned to the
caller (`none` is Python `None`). -/
structure ProcessOutcome where
  txStatus : TxStatus
  txResponse : Option Json
  returned : Option Json

/-- The phase-2 test `result.get("action") == "SERVICE"` (Python
equality with a string holds only for an equal string value). -/
def isServiceAction (result : Json) : Bool :=
  match result.get? "action" with
  | some (.str s) => s == "SERVICE"
  | _ => false

/-- `PaymentProcessor.process_payment_request`.  `commitFault` injects
an exception at the initial `db_session.commit()` (the only raise site
of the body once the rule functions and the provider call are seen to
swallow their own exceptions); `pg1` is the outcome of the routing rule
function, `micro` the provider transport outcome, and `pgResp` the
outcome of the response rule function as a function of the
`data_output` passed to it. -/
def process_payment_request (payload : Json) (commitFault : Option String)
    (pg1 : PgOutcome) (micro : Except String HttpResponse)
    (pgResp : Json → PgOutcome) : ProcessOutcome :=
  match commitFault with
  | some e =>
      { txStatus := .failed
        txResponse := some (.obj [("error", .str e)])
        returned := some (errorEnvelope payload e) }
  | none =>
      match call_pg_function pg1 with
      | some result =>
          if isServiceAction result then
            let microservice_response := call_microservice micro
            let final_result :=
              call_pg_response_function (pgResp microservice_response)
            { txStatus := .completed
              txResponse := final_result
              returned := final_result }
          else
            { txStatus := .completed
              txResponse := some result
              returned := some result }
      | none =>
          { txStatus := .completed
            txResponse := none
            returned := none }

/-! ### Alert engine (`AlertMonitor`) -/

/-- `alerts.status` column values. -/
inductive AlertStatus where
  | active
  | acknowledged
  | resolved
deriving DecidableEq, Repr

/-- An `alerts` row (the columns the monitor reads or writes; the
human-readable `title`/`message` strings are not modelled, their float
formatting has no observable effect on any behaviour below). -/
structure AlertRec where
  id : Nat
  alert_type : String
  severity : String
  status : AlertStatus
  client_id : Nat
  metric_value : ℚ
  created_at : Int
  acknowledged_at : Option Int
  acknowledged_by : Option Nat
  resolved_at : Option Int
  resolved_by : Option Nat
deriving DecidableEq, Repr

/-- An `alert_rules` row. -/
structure AlertRule where
  alert_type : String
  metric : String
  threshold_value : ℚ
  threshold_operator : String
  time_window : Nat
  client_id : Option Nat
  is_active : Bool

/-- `AlertMonitor.evaluate_threshold` (unknown operators evaluate to
False). -/
def evaluate_threshold (value threshold : ℚ) (operator : String) : Bool :=
  if operator = ">" then value > threshold
  else if operator = "<" then value < threshold
  else if operator = ">=" then value ≥ threshold
  else if operator = "<=" then value ≤ threshold
  else if operator = "==" then value = threshold
  else if operator = "!=" then value ≠ threshold
  else false

/-- `AlertMonitor.determine_severity`. -/
def determine_severity (rule : AlertRule) (metric_value : ℚ) : String :=
  if rule.metric = "success_rate" then
    if metric_value < 50 then "critical"
    else if metric_value < 70 then "error"
    else if metric_value < 85 then "warning"
    else "info"
  else if rule.metric = "inactivity" then
    if metric_value > 168 then "critical"
    else if metric_value > 72 then "error"
    else if metric_value > 24 then "warning"
    else "info"
  else "warning"

/-- `AlertMonitor.create_alert`: the freshly inserted active alert row
(`id` is the next primary key). -/
def create_alert (rule : AlertRule) (clientId : Nat) (metric_value : ℚ)
    (now : Int) (nextId : Nat) : AlertRec :=
  { id := nextId
    alert_type := rule.alert_type
    severity := determine_severity rule metric_value
    status := .active
    client_id := clientId
    metric_value := metric_value
    created_at := now
    acknowledged_at := none
    acknowledged_by := none
    resolved_at := none
    resolved_by := none }

/-- The duplicate-suppression query of `check_rule`: first active alert
of the same (alert_type, client) with
`created_at >= utcnow() - timedelta(hours=rule.time_window)`. -/
def findExistingActive (alerts : List AlertRec) (alertType : String)
    (clientId : Nat) (now : Int) (windowHours : Nat) : Option AlertRec :=
  alerts.find? (fun a =>
    a.alert_type == alertType && a.client_id == clientId &&
    a.status == AlertStatus.active &&
    decide (a.created_at ≥ now - 3600 * (windowHours : Int)))

/-- The client list `check_rule` iterates: the rule's own client (which
`Client.query.get` may fail to find, hence `Option`) or every active
client. -/
def clientsInScope (rule : AlertRule) (clientLookup : Nat → Bool)
    (activeClients : List Nat) : List (Option Nat) :=
  match rule.client_id with
  | some cid => [if clientLookup cid then some cid else none]
  | none => activeClients.map some

/-- The `for client in clients` loop of `check_rule`: skip missing
clients and `None` metrics, evaluate the threshold, suppress duplicates,
and — as in the source — return from the whole call on the first alert
created.  `metricOf` is the outcome of `calculate_metric` per client
(the ledger aggregation itself is opaque to every property below).
Returns (alert store, next primary key, created alert). -/
def checkClientsLoop (rule : AlertRule) (metricOf : Nat → Option ℚ)
    (now : Int) :
    List (Option Nat) → List AlertRec → Nat →
    List AlertRec × Nat × Option AlertRec
  | [], alerts, nextId => (alerts, nextId, none)
  | none :: cs, alerts, nextId =>
      checkClientsLoop rule metricOf now cs alerts nextId
  | some c :: cs, alerts, nextId =>
      match metricOf c with
      | none => checkClientsLoop rule metricOf now cs alerts nextId
      | some v =>
          if evaluate_threshold v rule.threshold_value
              rule.threshold_operator then
            match findExistingActive alerts rule.alert_type c now
                rule.time_window with
            | some _ => checkClientsLoop rule metricOf now cs alerts nextId
            | none =>
                let a := create_alert rule c v now nextId
                (alerts ++ [a], nextId + 1, some a)
          else checkClientsLoop rule metricOf now cs alerts nextId

/-- `AlertMonitor.check_rule`. -/
def check_rule (rule : AlertRule) (clientLookup : Nat → Bool)
    (activeClients : List Nat) (metricOf : Nat → Option ℚ) (now : Int)
    (alerts : List AlertRec) (nextId : Nat) :
    List AlertRec × Nat × Option AlertRec :=
  checkClientsLoop rule metricOf now
    (clientsInScope rule clientLookup activeClients) alerts nextId

/-- `AlertMonitor.acknowledge_alert`: `Alert.query.get(alert_id)`, then
set status/actor/timestamp unconditionally; False only when the id is
unknown. -/
def acknowledge_alert (alerts : List AlertRec) (alertId : Nat)
    (userId : Nat) (now : Int) : List AlertRec × Bool :=
  match alerts.find? (fun a => a.id == alertId) with
  | none => (alerts, false)
  | some _ =>
      (updateFirst (fun a => a.id == alertId)
        (fun a => { a with status := .acknowledged,
                           acknowledged_at := some now,
                           acknowledged_by := some userId }) alerts,
       true)

/-- `AlertMonitor.resolve_alert`, same shape. -/
def resolve_alert (alerts : List AlertRec) (alertId : Nat)
    (userId : Nat) (now : Int) : List AlertRec × Bool :=
  match alerts.find? (fun a => a.id == alertId) with
  | none => (alerts, false)
  | some _ =>
      (updateFirst (fun a => a.id == alertId)
        (fun a => { a with status := .resolved,
                           resolved_at := some now,
                           resolved_by := some userId }) alerts,
       true)

/-! ### Rate limiter (`SecurityMonitor.check_rate_limit`) -/

/-- A `rate_limits` row. -/
structure RateRec where
  identifier : String
  identifier_type : String
  endpoint : Option String
  request_count : Nat
  window_start : Int
  window_duration : Nat
  limit_threshold : Nat
  is_blocked : Bool
  blocked_until : Option Int
  created_at : Int
  updated_at : Int
deriving DecidableEq, Repr

/-- The limiter's storage: the `rate_limits` table in row order. -/
abbrev RLState := List RateRec

/-- Row predicate of the per-key query
`filter_by(identifier=…, identifier_type=…, endpoint=…)`. -/
def rlKeyMatch (ident idType : String) (endpoint : Option String)
    (r : RateRec) : Bool :=
  r.identifier == ident && r.identifier_type == idType &&
  r.endpoint == endpoint

/-- `SecurityMonitor._cleanup_rate_limits`: delete rows whose
`created_at` is older than 24 hours. -/
def cleanup_rate_limits (now : Int) (st : RLState) : RLState :=
  st.filter (fun r => !(decide (r.created_at < now - 86400)))

/-- `SecurityMonitor._is_identifier_blocked`: note the query filters by
(identifier, identifier_type, is_blocked) only — no endpoint.  Expired
blocks are lazily cleared.  Returns (blocked?, resulting storage). -/
def is_identifier_blocked (st : RLState) (ident idType : String)
    (now : Int) : Bool × RLState :=
  match st.find? (fun r => r.identifier == ident &&
      r.identifier_type == idType && r.is_blocked) with
  | none => (false, st)
  | some r =>
      match r.blocked_until with
      | some b =>
          if now < b then (true, st)
          else
            (false,
             updateFirst (fun r => r.identifier == ident &&
                 r.identifier_type == idType && r.is_blocked)
               (fun r => { r with is_blocked := false,
                                  blocked_until := none }) st)
      | none => (false, st)

/-- `SecurityMonitor.check_rate_limit`, embedded on the no-exception
path (a storage error makes the source fail open, which no property
below concerns).  Returns (resulting storage, allowed?, message). -/
def check_rate_limit (st : RLState) (ident : String)
    (idType : String) (endpoint : Option String)
    (limit window_duration : Nat) (now : Int) :
    RLState × Bool × String :=
  let st := cleanup_rate_limits now st
  match is_identifier_blocked st ident idType now with
  | (true, st) => (st, false, "Rate limit exceeded - temporarily blocked")
  | (false, st) =>
      match st.find? (rlKeyMatch ident idType endpoint) with
      | none =>
          let newRec : RateRec :=
            { identifier := ident
              identifier_type := idType
              endpoint := endpoint
              request_count := 1
              window_start := now
              window_duration := window_duration
              limit_threshold := limit
              is_blocked := false
              blocked_until := none
              created_at := now
              updated_at := now }
          let st := st ++ [newRec]
          if newRec.request_count > limit then
            (updateFirst (rlKeyMatch ident idType endpoint)
              (fun r => { r with is_blocked := true,
                                 blocked_until := some (now + 3600) }) st,
             false,
             "Rate limit exceeded. Blocked until " ++ toString (now + 3600))
          else (st, true, "Rate limit OK")
      | some r =>
          let r' :=
            if now - r.window_start > (window_duration : Int) then
              { r with request_count := 1
                       window_start := now
                       is_blocked := false
                       blocked_until := none
                       updated_at := now }
            else
              { r with request_count := r.request_count + 1
                       updated_at := now }
          let st := updateFirst (rlKeyMatch ident idType endpoint)
            (fun _ => r') st
          if r'.request_count > limit then
            (updateFirst (rlKeyMatch ident idType endpoint)
              (fun r => { r with is_blocked := true,
                                 blocked_until := some (now + 3600) }) st,
             false,
             "Rate limit exceeded. Blocked until " ++ toString (now + 3600))
          else (st, true, "Rate limit OK")

/-! ## Theorems

### Fraud scorer -/

theorem highAmountCond_iff (inp : FraudInput) :
    highAmountCond inp = true ↔ ∃ a, inp.amount = some a ∧ a > 10000 := by
  unfold highAmountCond
  cases h : inp.amount with
  | none => simp
  | some a =>
      simp only [Bool.and_eq_true, decide_eq_true_eq]
      constructor
      · rintro ⟨-, ha⟩
        exact ⟨a, rfl, ha⟩
      · rintro ⟨b, hb, hb2⟩
        cases hb
        exact ⟨by positivity, hb2⟩

theorem rapidCond_iff (inp : FraudInput) :
    rapidCond inp = true ↔ inp.recentCount > 5 := by
  simp [rapidCond]

theorem unusualHoursCond_iff (inp : FraudInput)
    (hh : inp.currentHour < 24) :
    unusualHoursCond inp = true ↔
      (22 ≤ inp.currentHour ∧ inp.currentHour ≤ 23) ∨ inp.currentHour ≤ 6 := by
  unfold unusualHoursCond
  simp only [Bool.or_eq_true, decide_eq_true_eq]
  omega

theorem newClientCond_iff (inp : FraudInput) :
    newClientCond inp = true ↔ ∃ d, inp.clientAgeDays = some d ∧ d < 7 := by
  unfold newClientCond
  cases h : inp.clientAgeDays with
  | none => simp
  | some d =>
      simp only [decide_eq_true_eq]
      constructor
      · intro hd
        exact ⟨d, rfl, hd⟩
      · rintro ⟨e, he, he2⟩
        cases he
        exact he2

theorem triggeredRules_sum (inp : FraudInput) :
    ((triggeredRules inp).map weightOf).sum = rawRiskScore inp := by
  unfold triggeredRules rawRiskScore
  cases highAmountCond inp <;> cases rapidCond inp <;>
    cases unusualHoursCond inp <;> cases newClientCond inp <;>
    simp [weightOf] <;> norm_num

theorem rawRiskScore_nonneg (inp : FraudInput) : 0 ≤ rawRiskScore inp := by
  unfold rawRiskScore
  cases highAmountCond inp <;> cases rapidCond inp <;>
    cases unusualHoursCond inp <;> cases newClientCond inp <;> norm_num

theorem rawRiskScore_mono (inp inp' : FraudInput)
    (h1 : highAmountCond inp = true → highAmountCond inp' = true)
    (h2 : rapidCond inp = true → rapidCond inp' = true)
    (h3 : unusualHoursCond inp = true → unusualHoursCond inp' = true)
    (h4 : newClientCond inp = true → newClientCond inp' = true) :
    rawRiskScore inp ≤ rawRiskScore inp' := by
  have step : ∀ (b b' : Bool) (w : ℚ), 0 ≤ w → (b = true → b' = true) →
      (if b then w else 0) ≤ (if b' then w else 0) := by
    intro b b' w hw h
    cases b with
    | false => cases b' <;> simp [hw]
    | true => simp [h rfl]
  unfold rawRiskScore
  exact add_le_add (add_le_add (add_le_add
    (step _ _ _ (by norm_num) h1) (step _ _ _ (by norm_num) h2))
    (step _ _ _ (by norm_num) h3)) (step _ _ _ (by norm_num) h4)

theorem mem_triggeredRules_high (inp : FraudInput) :
    "high_amount" ∈ triggeredRules inp ↔ highAmountCond inp = true := by
  unfold triggeredRules
  cases highAmountCond inp <;> cases rapidCond inp <;>
    cases unusualHoursCond inp <;> cases newClientCond inp <;> simp

theorem mem_triggeredRules_rapid (inp : FraudInput) :
    "rapid_transactions" ∈ triggeredRules inp ↔ rapidCond inp = true := by
  unfold triggeredRules
  cases highAmountCond inp <;> cases rapidCond inp <;>
    cases unusualHoursCond inp <;> cases newClientCond inp <;> simp

theorem mem_triggeredRules_unusual (inp : FraudInput) :
    "unusual_hours" ∈ triggeredRules inp ↔ unusualHoursCond inp = true := by
  unfold triggeredRules
  cases highAmountCond inp <;> cases rapidCond inp <;>
    cases unusualHoursCond inp <;> cases newClientCond inp <;> simp

theorem mem_triggeredRules_new (inp : FraudInput) :
    "new_client" ∈ triggeredRules inp ↔ newClientCond inp = true := by
  unfold triggeredRules
  cases highAmountCond inp <;> cases rapidCond inp <;>
    cases unusualHoursCond inp <;> cases newClientCond inp <;> simp

/-- C5: the stored fraud `risk_score` is the weight sum of the triggered
indicators capped at 1.0; it lies in [0,1]; the indicators trigger
exactly under the claimed conditions (`high_amount` for amount > 10000,
`rapid_transactions` for more than 5 recent transactions,
`unusual_hours` for a UTC hour in [22,23] ∪ [0,6], `new_client` for
client age below 7 days); the status is `approved` iff the score is
≤ 0.5 and `pending` otherwise; and triggering additional indicators
never decreases the score. -/
theorem c5_fraud_score_spec (inp : FraudInput)
    (hh : inp.currentHour < 24) :
    (analyze_transaction_fraud inp).risk_score
        = min (((analyze_transaction_fraud inp).fraud_rules_triggered.map
            weightOf).sum) 1
    ∧ 0 ≤ (analyze_transaction_fraud inp).risk_score
    ∧ (analyze_transaction_fraud inp).risk_score ≤ 1
    ∧ ("high_amount" ∈ (analyze_transaction_fraud inp).fraud_rules_triggered
        ↔ ∃ a, inp.amount = some a ∧ a > 10000)
    ∧ ("rapid_transactions" ∈
          (analyze_transaction_fraud inp).fraud_rules_triggered
        ↔ inp.recentCount > 5)
    ∧ ("unusual_hours" ∈ (analyze_transaction_fraud inp).fraud_rules_triggered
        ↔ (22 ≤ inp.currentHour ∧ inp.currentHour ≤ 23) ∨ inp.currentHour ≤ 6)
    ∧ ("new_client" ∈ (analyze_transaction_fraud inp).fraud_rules_triggered
        ↔ ∃ d, inp.clientAgeDays = some d ∧ d < 7)
    ∧ ((analyze_transaction_fraud inp).status = "approved"
        ↔ (analyze_transaction_fraud inp).risk_score ≤ 1/2)
    ∧ ((analyze_transaction_fraud inp).status = "pending"
        ↔ ¬ (analyze_transaction_fraud inp).risk_score ≤ 1/2)
    ∧ ∀ inp' : FraudInput,
        (highAmountCond inp = true → highAmountCond inp' = true) →
        (rapidCond inp = true → rapidCond inp' = true) →
        (unusualHoursCond inp = true → unusualHoursCond inp' = true) →
        (newClientCond inp = true → newClientCond inp' = true) →
        (analyze_transaction_fraud inp).risk_score
          ≤ (analyze_transaction_fraud inp').risk_score := by
  have hraw0 : 0 ≤ rawRiskScore inp := rawRiskScore_nonneg inp
  have hmin : min (rawRiskScore inp) 1 ≤ 1/2 ↔ rawRiskScore inp ≤ 1/2 := by
    constructor
    · intro h
      rcases min_cases (rawRiskScore inp) 1 with ⟨he, -⟩ | ⟨he, hlt⟩
      · rwa [he] at h
      · rw [he] at h; norm_num at h
    · intro h
      calc min (rawRiskScore inp) 1 ≤ rawRiskScore inp := min_le_left _ _
        _ ≤ 1/2 := h
  refine ⟨?_, ?_, ?_, ?_, ?_, ?_, ?_, ?_, ?_, ?_⟩
  · simp [analyze_transaction_fraud, triggeredRules_sum]
  · simp only [analyze_transaction_fraud]
    exact le_min hraw0 (by norm_num)
  · exact min_le_right _ _
  · simpa [analyze_transaction_fraud] using
      (mem_triggeredRules_high inp).trans (highAmountCond_iff inp)
  · simpa [analyze_transaction_fraud] using
      (mem_triggeredRules_rapid inp).trans (rapidCond_iff inp)
  · simpa [analyze_transaction_fraud] using
      (mem_triggeredRules_unusual inp).trans (unusualHoursCond_iff inp hh)
  · simpa [analyze_transaction_fraud] using
      (mem_triggeredRules_new inp).trans (newClientCond_iff inp)
  · simp only [analyze_transaction_fraud]
    rw [hmin]
    by_cases h : rawRiskScore inp > 1/2
    · simp [h, not_le.mpr h]
    · simp [h, not_lt.mp h]
  · simp only [analyze_transaction_fraud]
    rw [hmin]
    by_cases h : rawRiskScore inp > 1/2
    · simp [h, not_le.mpr h]
    · simp [h, not_lt.mp h]
  · intro inp' h1 h2 h3 h4
    simp only [analyze_transaction_fraud]
    exact min_le_min (rawRiskScore_mono inp inp' h1 h2 h3 h4) le_rfl

/-- Witness for C5 at a concrete input (amount 5, 0 recent
transactions, hour 12, unknown client age). -/
theorem c5_fraud_score_spec_witness :
    (⟨some 5, 0, 12, none⟩ : FraudInput).currentHour < 24
    ∧ ((analyze_transaction_fraud ⟨some 5, 0, 12, none⟩).risk_score
        = min (((analyze_transaction_fraud
            ⟨some 5, 0, 12, none⟩).fraud_rules_triggered.map weightOf).sum) 1
      ∧ 0 ≤ (analyze_transaction_fraud ⟨some 5, 0, 12, none⟩).risk_score
      ∧ (analyze_transaction_fraud ⟨some 5, 0, 12, none⟩).risk_score ≤ 1
      ∧ ("high_amount" ∈ (analyze_transaction_fraud
            ⟨some 5, 0, 12, none⟩).fraud_rules_triggered
          ↔ ∃ a, (⟨some 5, 0, 12, none⟩ : FraudInput).amount = some a
              ∧ a > 10000)
      ∧ ("rapid_transactions" ∈ (analyze_transaction_fraud
            ⟨some 5, 0, 12, none⟩).fraud_rules_triggered
          ↔ (⟨some 5, 0, 12, none⟩ : FraudInput).recentCount > 5)
      ∧ ("unusual_hours" ∈ (analyze_transaction_fraud
            ⟨some 5, 0, 12, none⟩).fraud_rules_triggered
          ↔ (22 ≤ (⟨some 5, 0, 12, none⟩ : FraudInput).currentHour
                ∧ (⟨some 5, 0, 12, none⟩ : FraudInput).currentHour ≤ 23)
              ∨ (⟨some 5, 0, 12, none⟩ : FraudInput).currentHour ≤ 6)
      ∧ ("new_client" ∈ (analyze_transaction_fraud
            ⟨some 5, 0, 12, none⟩).fraud_rules_triggered
          ↔ ∃ d, (⟨some 5, 0, 12, none⟩ : FraudInput).clientAgeDays = some d
              ∧ d < 7)
      ∧ ((analyze_transaction_fraud ⟨some 5, 0, 12, none⟩).status = "approved"
          ↔ (analyze_transaction_fraud ⟨some 5, 0, 12, none⟩).risk_score ≤ 1/2)
      ∧ ((analyze_transaction_fraud ⟨some 5, 0, 12, none⟩).status = "pending"
          ↔ ¬ (analyze_transaction_fraud
              ⟨some 5, 0, 12, none⟩).risk_score ≤ 1/2)
      ∧ ∀ inp' : FraudInput,
          (highAmountCond ⟨some 5, 0, 12, none⟩ = true
            → highAmountCond inp' = true) →
          (rapidCond ⟨some 5, 0, 12, none⟩ = true → rapidCond inp' = true) →
          (unusualHoursCond ⟨some 5, 0, 12, none⟩ = true
            → unusualHoursCond inp' = true) →
          (newClientCond ⟨some 5, 0, 12, none⟩ = true
            → newClientCond inp' = true) →
          (analyze_transaction_fraud ⟨some 5, 0, 12, none⟩).risk_score
            ≤ (analyze_transaction_fraud inp').risk_score) :=
  ⟨by decide, c5_fraud_score_spec ⟨some 5, 0, 12, none⟩ (by decide)⟩

/-- C6 fails as stated: at the scenario input the risk score is exactly
0.8, and the high-severity test is the strict comparison
`risk_score > 0.8`, so the emitted security event has severity
`medium`, not `high`. -/
theorem c6_scenario_counterexample :
    (analyze_transaction_fraud ⟨some 15000, 1, 2, some 2⟩).eventSeverity
        = some "medium"
    ∧ (analyze_transaction_fraud ⟨some 15000, 1, 2, some 2⟩).eventSeverity
        ≠ some "high" := by
  have hraw : rawRiskScore ⟨some 15000, 1, 2, some 2⟩ = 4/5 := by
    have h1 : highAmountCond ⟨some 15000, 1, 2, some 2⟩ = true := by decide
    have h2 : rapidCond ⟨some 15000, 1, 2, some 2⟩ = false := by decide
    have h3 : unusualHoursCond ⟨some 15000, 1, 2, some 2⟩ = true := by decide
    have h4 : newClientCond ⟨some 15000, 1, 2, some 2⟩ = true := by decide
    simp only [rawRiskScore, h1, h2, h3, h4]
    norm_num
  simp only [analyze_transaction_fraud, hraw]
  rw [if_pos (by norm_num : (4:ℚ)/5 > 1/2),
    if_neg (by norm_num : ¬ (4:ℚ)/5 > 4/5)]
  refine ⟨rfl, by simp⟩

/-- C6 (amended): a client created 2 days ago, amount 15000, scored at
02:00 UTC (1 transaction in the rapid-transaction window) yields
risk_score 0.8 = 0.3 + 0.2 + 0.3, status `pending`, and a security
event of severity `medium` (0.8 is not strictly above the 0.8
high-severity cutoff). -/
theorem c6_scenario_amended :
    analyze_transaction_fraud ⟨some 15000, 1, 2, some 2⟩ =
      { risk_score := 3/10 + 2/10 + 3/10
        fraud_rules_triggered := ["high_amount", "unusual_hours", "new_client"]
        status := "pending"
        eventSeverity := some "medium" } := by
  have h1 : highAmountCond ⟨some 15000, 1, 2, some 2⟩ = true := by decide
  have h2 : rapidCond ⟨some 15000, 1, 2, some 2⟩ = false := by decide
  have h3 : unusualHoursCond ⟨some 15000, 1, 2, some 2⟩ = true := by decide
  have h4 : newClientCond ⟨some 15000, 1, 2, some 2⟩ = true := by decide
  have hraw : rawRiskScore ⟨some 15000, 1, 2, some 2⟩ = 4/5 := by
    simp only [rawRiskScore, h1, h2, h3, h4]
    norm_num
  simp only [analyze_transaction_fraud, hraw, triggeredRules, h1, h2, h3, h4,
    FraudAssessment.mk.injEq]
  refine ⟨?_, by simp, ?_, ?_⟩
  · rw [min_eq_left (by norm_num : (4:ℚ)/5 ≤ 1)]
    norm_num
  · rw [if_pos (by norm_num : (4:ℚ)/5 > 1/2)]
  · rw [if_pos (by norm_num : (4:ℚ)/5 > 1/2),
      if_neg (by norm_num : ¬ (4:ℚ)/5 > 4/5)]

/-! ### Routing dispatcher -/

/-- C1 fails as stated: when the routing rule function raises, the
exception is swallowed inside `call_pg_function`, so at this concrete
input the transaction finalizes `completed` (not `failed`) and the
caller receives `None` instead of a synthetic 500 envelope. -/
theorem c1_counterexample :
    (process_payment_request (.obj []) none (.raises "rule resolution threw")
        (.error "unused") (fun _ => .returns none)).txStatus
      = TxStatus.completed
    ∧ (process_payment_request (.obj []) none
        (.raises "rule resolution threw")
        (.error "unused") (fun _ => .returns none)).txStatus
      ≠ TxStatus.failed
    ∧ (process_payment_request (.obj []) none
        (.raises "rule resolution threw")
        (.error "unused") (fun _ => .returns none)).returned = none := by
  refine ⟨rfl, by decide, rfl⟩

/-- C1 (amended): a rule-resolution/execution error is caught inside
`call_pg_function`, which returns `None`; the transaction then
finalizes `completed` with `response_payload` `None` and the caller
receives `None`.  The `failed` status plus the synthetic 500 `OUTPUT`
envelope arise only when `process_payment_request`'s own body raises
(e.g. the initial commit fails). -/
theorem c1_rule_error_swallowed (payload : Json) (msg : String)
    (micro : Except String HttpResponse) (pgResp : Json → PgOutcome) :
    ((process_payment_request payload none (.raises msg) micro
        pgResp).txStatus = TxStatus.completed
    ∧ (process_payment_request payload none (.raises msg) micro
        pgResp).txResponse = none
    ∧ (process_payment_request payload none (.raises msg) micro
        pgResp).returned = none)
    ∧ ∀ (e : String) (pg1 : PgOutcome),
        (process_payment_request payload (some e) pg1 micro
            pgResp).txStatus = TxStatus.failed
        ∧ (process_payment_request payload (some e) pg1 micro
            pgResp).returned = some (errorEnvelope payload e) :=
  ⟨⟨rfl, rfl, rfl⟩, fun _ _ => ⟨rfl, rfl⟩⟩

/-- C2: a provider transport failure (network error/timeout) is
captured by `call_microservice` as `{status_code: 500, data: {error}}`
rather than raised, and a forwarded (phase 2) request still finalizes
its transaction as `completed`, with the reconciliation phase receiving
that synthetic envelope. -/
theorem c2_provider_error_completed (payload env : Json) (err : String)
    (pgResp : Json → PgOutcome) (h : isServiceAction env = true) :
    call_microservice (.error err)
        = .obj [("status_code", .num 500),
                ("data", .obj [("error",
                  .str ("Microservice call failed: " ++ err))])]
    ∧ (process_payment_request payload none (.returns (some env))
        (.error err) pgResp).txStatus = TxStatus.completed
    ∧ (process_payment_request payload none (.returns (some env))
        (.error err) pgResp).returned
      = call_pg_response_function (pgResp (call_microservice (.error err))) := by
  refine ⟨rfl, ?_, ?_⟩ <;>
    simp [process_payment_request, call_pg_function, h]

/-- Witness for C2 at a concrete forwarded request. -/
theorem c2_provider_error_completed_witness :
    isServiceAction (.obj [("action", .str "SERVICE")]) = true
    ∧ (call_microservice (.error "timeout")
        = .obj [("status_code", .num 500),
                ("data", .obj [("error",
                  .str ("Microservice call failed: " ++ "timeout"))])]
    ∧ (process_payment_request (.obj [])  none
        (.returns (some (.obj [("action", .str "SERVICE")])))
        (.error "timeout") (fun _ => .returns none)).txStatus
        = TxStatus.completed
    ∧ (process_payment_request (.obj [])  none
        (.returns (some (.obj [("action", .str "SERVICE")])))
        (.error "timeout") (fun _ => .returns none)).returned
      = call_pg_response_function ((fun _ => PgOutcome.returns none)
          (call_microservice (.error "timeout")))) :=
  ⟨rfl, c2_provider_error_completed (.obj []) (.obj [("action", .str "SERVICE")])
    "timeout" (fun _ => .returns none) rfl⟩

/-! ### IP blacklist -/

/-- C10: when the blacklist lookup itself fails with a storage error,
`check_ip_blacklist` reports not-blocked (fails open) for every IP, so
a storage failure never causes a rejection. -/
theorem c10_blacklist_fails_open (msg ip : String) (now : Int) :
    (check_ip_blacklist (.error msg) ip now).1 = false
    ∧ (check_ip_blacklist (.error msg) ip now).2.1
        = "Blacklist check failed" :=
  ⟨rfl, rfl⟩

/-! ### Alert engine -/

/-- Number of active alerts stored for an (alert_type, client) pair. -/
def countActivePair (alerts : List AlertRec) (alertType : String)
    (c : Nat) : Nat :=
  (alerts.filter (fun a => a.alert_type == alertType && a.client_id == c &&
    a.status == AlertStatus.active)).length

theorem find?_append_none {p : α → Bool} :
    ∀ {l₁ : List α} (l₂ : List α), l₁.find? p = none →
      (l₁ ++ l₂).find? p = l₂.find? p := by
  intro l₁
  induction l₁ with
  | nil => intro l₂ _; rfl
  | cons x xs ih =>
      intro l₂ h
      by_cases hx : p x = true
      · rw [List.find?_cons_of_pos _ hx] at h
        cases h
      · rw [List.find?_cons_of_neg _ hx] at h
        rw [List.cons_append, List.find?_cons_of_neg _ hx]
        exact ih l₂ h

theorem updateFirst_eq_of_find? (p : α → Bool) (f : α → α) :
    ∀ (l : List α) (a : α), l.find? p = some a →
      ∃ l₁ l₂, l = l₁ ++ a :: l₂ ∧ (∀ x ∈ l₁, p x = false)
        ∧ updateFirst p f l = l₁ ++ f a :: l₂ := by
  intro l
  induction l with
  | nil => intro a h; cases h
  | cons x xs ih =>
      intro a h
      by_cases hx : p x = true
      · rw [List.find?_cons_of_pos _ hx] at h
        cases h
        exact ⟨[], xs, by simp, by simp, by simp [updateFirst, hx]⟩
      · rw [List.find?_cons_of_neg _ hx] at h
        obtain ⟨l₁, l₂, he, hall, hu⟩ := ih a h
        refine ⟨x :: l₁, l₂, by simp [he], ?_, ?_⟩
        · intro y hy
          rcases List.mem_cons.mp hy with hy | hy
          · cases hy
            exact Bool.eq_false_iff.mpr hx
          · exact hall y hy
        · simp [updateFirst, hx, hu]

theorem mem_updateFirst (p : α → Bool) (f : α → α) :
    ∀ (l : List α) (b : α), b ∈ updateFirst p f l →
      b ∈ l ∨ ∃ a, a ∈ l ∧ b = f a := by
  intro l
  induction l with
  | nil => intro b h; cases h
  | cons x xs ih =>
      intro b h
      simp only [updateFirst] at h
      by_cases hx : p x = true
      · rw [if_pos hx] at h
        rcases List.mem_cons.mp h with h | h
        · exact Or.inr ⟨x, List.mem_cons_self _ _, h⟩
        · exact Or.inl (List.mem_cons_of_mem _ h)
      · rw [if_neg hx] at h
        rcases List.mem_cons.mp h with h | h
        · exact Or.inl (h ▸ List.mem_cons_self _ _)
        · rcases ih b h with h | ⟨a, ha, hb⟩
          · exact Or.inl (List.mem_cons_of_mem _ h)
          · exact Or.inr ⟨a, List.mem_cons_of_mem _ ha, hb⟩

/-- C7: for an alert rule scoped to one client, when the client
breaches at two evaluations within the rule's `time_window` and no
active alert for the (alert_type, client) pair exists beforehand, the
first evaluation creates the single alert and the second creates
nothing: afterwards exactly one active alert exists for the pair. -/
theorem c7_alert_dedup (rule : AlertRule) (clientLookup : Nat → Bool)
    (activeClients : List Nat) (metric1 metric2 : Nat → Option ℚ)
    (t1 t2 : Int) (alerts0 : List AlertRec) (nextId : Nat) (c : Nat)
    (v1 v2 : ℚ)
    (hc : rule.client_id = some c) (hlook : clientLookup c = true)
    (hm1 : metric1 c = some v1) (hm2 : metric2 c = some v2)
    (hb1 : evaluate_threshold v1 rule.threshold_value
        rule.threshold_operator = true)
    (hb2 : evaluate_threshold v2 rule.threshold_value
        rule.threshold_operator = true)
    (h0 : ∀ a ∈ alerts0, ¬(a.alert_type = rule.alert_type
        ∧ a.client_id = c ∧ a.status = AlertStatus.active))
    (ht : t2 - t1 ≤ 3600 * (rule.time_window : Int)) :
    check_rule rule clientLookup activeClients metric1 t1 alerts0 nextId
      = (alerts0 ++ [create_alert rule c v1 t1 nextId], nextId + 1,
         some (create_alert rule c v1 t1 nextId))
    ∧ check_rule rule clientLookup activeClients metric2 t2
        (alerts0 ++ [create_alert rule c v1 t1 nextId]) (nextId + 1)
      = (alerts0 ++ [create_alert rule c v1 t1 nextId], nextId + 1, none)
    ∧ countActivePair (alerts0 ++ [create_alert rule c v1 t1 nextId])
        rule.alert_type c = 1 := by
  have hpred0 : ∀ (now : Int), ∀ a ∈ alerts0,
      (a.alert_type == rule.alert_type && a.client_id == c &&
        a.status == AlertStatus.active &&
        decide (a.created_at ≥ now - 3600 * (rule.time_window : Int)))
        = false := by
    intro now a ha
    rw [Bool.eq_false_iff]
    intro hcon
    simp only [Bool.and_eq_true, beq_iff_eq, decide_eq_true_eq] at hcon
    exact h0 a ha ⟨hcon.1.1.1, hcon.1.1.2, hcon.1.2⟩
  have hfind1 : findExistingActive alerts0 rule.alert_type c t1
      rule.time_window = none := by
    unfold findExistingActive
    rw [List.find?_eq_none]
    intro a ha
    rw [Bool.not_eq_true]
    exact hpred0 t1 a ha
  have hfind0t2 : alerts0.find? (fun a =>
      a.alert_type == rule.alert_type && a.client_id == c &&
      a.status == AlertStatus.active &&
      decide (a.created_at ≥ t2 - 3600 * (rule.time_window : Int))) = none := by
    rw [List.find?_eq_none]
    intro a ha
    rw [Bool.not_eq_true]
    exact hpred0 t2 a ha
  have hmatch : ((create_alert rule c v1 t1 nextId).alert_type
        == rule.alert_type
      && (create_alert rule c v1 t1 nextId).client_id == c
      && (create_alert rule c v1 t1 nextId).status == AlertStatus.active
      && decide ((create_alert rule c v1 t1 nextId).created_at
          ≥ t2 - 3600 * (rule.time_window : Int))) = true := by
    simp only [create_alert, Bool.and_eq_true, beq_iff_eq,
      decide_eq_true_eq, eq_self_iff_true, and_true, true_and]
    omega
  have hfind2 : findExistingActive
      (alerts0 ++ [create_alert rule c v1 t1 nextId]) rule.alert_type c t2
      rule.time_window = some (create_alert rule c v1 t1 nextId) := by
    unfold findExistingActive
    rw [find?_append_none _ hfind0t2]
    simp only [List.find?_cons, hmatch]
  refine ⟨?_, ?_, ?_⟩
  · simp only [check_rule, clientsInScope, hc, hlook, if_true,
      checkClientsLoop, hm1, hb1, hfind1]
  · simp only [check_rule, clientsInScope, hc, hlook, if_true,
      checkClientsLoop, hm2, hb2, hfind2]
  · unfold countActivePair
    rw [List.filter_append]
    have h1 : alerts0.filter (fun a =>
        a.alert_type == rule.alert_type && a.client_id == c &&
        a.status == AlertStatus.active) = [] := by
      rw [List.filter_eq_nil_iff]
      intro a ha
      intro hcon
      simp only [Bool.and_eq_true, beq_iff_eq] at hcon
      exact h0 a ha ⟨hcon.1.1, hcon.1.2, hcon.2⟩
    have h2 : ([create_alert rule c v1 t1 nextId]).filter (fun a =>
        a.alert_type == rule.alert_type && a.client_id == c &&
        a.status == AlertStatus.active)
        = [create_alert rule c v1 t1 nextId] := by
      simp [create_alert]
    rw [h1, h2]
    rfl

/-- Witness for C7 at a concrete rule and client. -/
theorem c7_alert_dedup_witness :
    evaluate_threshold 60 (70 : ℚ) "<" = true
    ∧ countActivePair
        ([] ++ [create_alert ⟨"performance", "success_rate", 70, "<", 24,
            some 5, true⟩ 5 60 1000 1]) "performance" 5 = 1 :=
  ⟨by decide,
   (c7_alert_dedup ⟨"performance", "success_rate", 70, "<", 24, some 5, true⟩
      (fun _ => true) [] (fun _ => some 60) (fun _ => some 60) 1000 2000 [] 1
      5 60 60 rfl rfl rfl rfl (by decide) (by decide) (by simp)
      (by norm_num)).2.2⟩

/-- The global alert rule used as the C8 counterexample input. -/
def c8Rule : AlertRule :=
  { alert_type := "threshold", metric := "transaction_count"
    threshold_value := 5, threshold_operator := ">", time_window := 24
    client_id := none, is_active := true }

/-- C8 fails as stated: with a null-client rule and two active clients
both breaching (metric 10 > 5), one `check_rule` evaluation creates an
alert only for the first client; the second breaching client gets
none. -/
theorem c8_counterexample :
    ((check_rule c8Rule (fun _ => true) [1, 2] (fun _ => some 10) 0 []
        1).1.map AlertRec.client_id) = [1]
    ∧ countActivePair
        (check_rule c8Rule (fun _ => true) [1, 2] (fun _ => some 10) 0 []
          1).1 c8Rule.alert_type 2 = 0
    ∧ evaluate_threshold 10 c8Rule.threshold_value
        c8Rule.threshold_operator = true := by
  refine ⟨by decide, by decide, by decide⟩

/-- C8 (amended): in one evaluation of an active rule with null
client_id, the first breaching in-scope client without an existing
duplicate gets the one new alert and `check_rule` returns immediately;
the remaining clients — breaching or not — are not examined in that
evaluation. -/
theorem c8_first_breach_wins (rule : AlertRule)
    (clientLookup : Nat → Bool) (cs : List Nat)
    (metricOf : Nat → Option ℚ) (now : Int) (alerts0 : List AlertRec)
    (nextId c : Nat) (v : ℚ)
    (hc : rule.client_id = none) (hm : metricOf c = some v)
    (hb : evaluate_threshold v rule.threshold_value
        rule.threshold_operator = true)
    (hdup : findExistingActive alerts0 rule.alert_type c now
        rule.time_window = none) :
    check_rule rule clientLookup (c :: cs) metricOf now alerts0 nextId
      = (alerts0 ++ [create_alert rule c v now nextId], nextId + 1,
         some (create_alert rule c v now nextId)) := by
  simp only [check_rule, clientsInScope, hc, List.map_cons,
    checkClientsLoop, hm, hb, hdup, if_true]

/-- Witness for C8 (amended) with a second breaching client present. -/
theorem c8_first_breach_wins_witness :
    evaluate_threshold 10 c8Rule.threshold_value
        c8Rule.threshold_operator = true
    ∧ check_rule c8Rule (fun _ => true) [1, 2] (fun _ => some 10) 0 [] 1
      = ([] ++ [create_alert c8Rule 1 10 0 1], 1 + 1,
         some (create_alert c8Rule 1 10 0 1)) :=
  ⟨by decide,
   c8_first_breach_wins c8Rule (fun _ => true) [2] (fun _ => some 10) 0 []
     1 1 10 rfl rfl (by decide) rfl⟩

/-- A resolved alert row, input of the C9 counterexample. -/
def resolvedAlert : AlertRec :=
  { id := 1, alert_type := "performance", severity := "warning"
    status := .resolved, client_id := 2, metric_value := 0
    created_at := 0, acknowledged_at := none, acknowledged_by := none
    resolved_at := some 50, resolved_by := some 3 }

/-- C9 fails as stated: `acknowledge_alert` on a resolved alert is not
rejected — it returns True and moves the alert backward to
`acknowledged`. -/
theorem c9_counterexample :
    resolvedAlert.status = AlertStatus.resolved
    ∧ (acknowledge_alert [resolvedAlert] 1 7 100).2 = true
    ∧ ((acknowledge_alert [resolvedAlert] 1 7 100).1.map AlertRec.status)
      = [AlertStatus.acknowledged] := by
  refine ⟨by decide, by decide, by decide⟩

/-- C9 (amended): `acknowledge_alert`/`resolve_alert` set the status of
any existing alert unconditionally — in particular a resolved alert is
moved back to `acknowledged` by `acknowledge_alert` and is not
rejected.  What does hold: the operations only ever write
`acknowledged` resp. `resolved` (so no alert is ever moved back to
`active`), and an unknown alert id is rejected, returning False and
leaving the store unchanged. -/
theorem c9_alert_transitions (alerts : List AlertRec) (aid uid : Nat)
    (now : Int) (a : AlertRec)
    (hfind : alerts.find? (fun x => x.id == aid) = some a) :
    ((acknowledge_alert alerts aid uid now).2 = true
      ∧ ∃ l₁ l₂, alerts = l₁ ++ a :: l₂
          ∧ (acknowledge_alert alerts aid uid now).1
            = l₁ ++ { a with status := .acknowledged,
                             acknowledged_at := some now,
                             acknowledged_by := some uid } :: l₂)
    ∧ ((resolve_alert alerts aid uid now).2 = true
      ∧ ∃ l₁ l₂, alerts = l₁ ++ a :: l₂
          ∧ (resolve_alert alerts aid uid now).1
            = l₁ ++ { a with status := .resolved,
                             resolved_at := some now,
                             resolved_by := some uid } :: l₂)
    ∧ (∀ b ∈ (acknowledge_alert alerts aid uid now).1,
        b ∈ alerts ∨ b.status = AlertStatus.acknowledged)
    ∧ (∀ b ∈ (resolve_alert alerts aid uid now).1,
        b ∈ alerts ∨ b.status = AlertStatus.resolved)
    ∧ (∀ (alerts' : List AlertRec) (aid' uid' : Nat) (now' : Int),
        alerts'.find? (fun x => x.id == aid') = none →
          acknowledge_alert alerts' aid' uid' now' = (alerts', false)
          ∧ resolve_alert alerts' aid' uid' now' = (alerts', false)) := by
  have hack : (acknowledge_alert alerts aid uid now)
      = (updateFirst (fun x => x.id == aid)
          (fun x => { x with status := .acknowledged,
                             acknowledged_at := some now,
                             acknowledged_by := some uid }) alerts, true) := by
    simp only [acknowledge_alert, hfind]
  have hres : (resolve_alert alerts aid uid now)
      = (updateFirst (fun x => x.id == aid)
          (fun x => { x with status := .resolved,
                             resolved_at := some now,
                             resolved_by := some uid }) alerts, true) := by
    simp only [resolve_alert, hfind]
  refine ⟨⟨by rw [hack], ?_⟩, ⟨by rw [hres], ?_⟩, ?_, ?_, ?_⟩
  · obtain ⟨l₁, l₂, he, -, hu⟩ := updateFirst_eq_of_find?
      (fun x => x.id == aid)
      (fun x => { x with status := .acknowledged,
                         acknowledged_at := some now,
                         acknowledged_by := some uid }) alerts a hfind
    exact ⟨l₁, l₂, he, by rw [hack, hu]⟩
  · obtain ⟨l₁, l₂, he, -, hu⟩ := updateFirst_eq_of_find?
      (fun x => x.id == aid)
      (fun x => { x with status := .resolved,
                         resolved_at := some now,
                         resolved_by := some uid }) alerts a hfind
    exact ⟨l₁, l₂, he, by rw [hres, hu]⟩
  · intro b hb
    rw [hack] at hb
    rcases mem_updateFirst _ _ alerts b hb with h | ⟨x, -, hx⟩
    · exact Or.inl h
    · exact Or.inr (by rw [hx])
  · intro b hb
    rw [hres] at hb
    rcases mem_updateFirst _ _ alerts b hb with h | ⟨x, -, hx⟩
    · exact Or.inl h
    · exact Or.inr (by rw [hx])
  · intro alerts' aid' uid' now' hnone
    constructor
    · simp only [acknowledge_alert, hnone]
    · simp only [resolve_alert, hnone]

/-- Witness for C9 (amended), exercising the backward
resolved→acknowledged move. -/
theorem c9_alert_transitions_witness :
    resolvedAlert.status = AlertStatus.resolved
    ∧ (acknowledge_alert [resolvedAlert] 1 7 100).2 = true :=
  ⟨by decide,
   (c9_alert_transitions [resolvedAlert] 1 7 100 resolvedAlert
      (by decide)).1.1⟩

/-! ### Rate limiter -/

/-- The single unblocked row the limiter keeps for a key: count `k`,
window started at `ws`, row created at `c`, last updated at `u`. -/
def rlCanon (ident idType : String) (ep : Option String) (L W k : Nat)
    (ws c u : Int) : RateRec :=
  { identifier := ident
    identifier_type := idType
    endpoint := ep
    request_count := k
    window_start := ws
    window_duration := W
    limit_threshold := L
    is_blocked := false
    blocked_until := none
    created_at := c
    updated_at := u }

/-- The same row after the limiter has blocked it until `b`. -/
def rlBlocked (ident idType : String) (ep : Option String) (L W k : Nat)
    (ws c u b : Int) : RateRec :=
  { rlCanon ident idType ep L W k ws c u with
      is_blocked := true, blocked_until := some b }

/-- Run a sequence of `check_rate_limit` calls for one key at the given
times, collecting the allow/reject verdicts. -/
def rlRun (ident idType : String) (ep : Option String) (L W : Nat)
    (st : RLState) : List Int → RLState × List Bool
  | [] => (st, [])
  | t :: ts =>
      let r := check_rate_limit st ident idType ep L W t
      let rest := rlRun ident idType ep L W r.1 ts
      (rest.1, r.2.1 :: rest.2)

theorem rl_first_call (ident idType : String) (ep : Option String)
    (L W : Nat) (t : Int) (hL : 1 ≤ L) :
    check_rate_limit [] ident idType ep L W t
      = ([rlCanon ident idType ep L W 1 t t t], true, "Rate limit OK") := by
  have h1 : ¬(1 > L) := by omega
  simp [check_rate_limit, cleanup_rate_limits, is_identifier_blocked,
    rlKeyMatch, rlCanon, updateFirst, h1]

theorem rl_step_incr (ident idType : String) (ep : Option String)
    (L W k : Nat) (ws c u t : Int)
    (hclean : ¬(c < t - 86400)) (hwin : ¬(t - ws > (W : Int)))
    (hcount : ¬(k + 1 > L)) :
    check_rate_limit [rlCanon ident idType ep L W k ws c u]
        ident idType ep L W t
      = ([rlCanon ident idType ep L W (k + 1) ws c t], true,
         "Rate limit OK") := by
  simp [check_rate_limit, cleanup_rate_limits, is_identifier_blocked,
    rlKeyMatch, rlCanon, updateFirst, List.filter, List.find?,
    hclean, hwin, hcount]

theorem rl_step_reject (ident idType : String) (ep : Option String)
    (L W k : Nat) (ws c u t : Int)
    (hclean : ¬(c < t - 86400)) (hwin : ¬(t - ws > (W : Int)))
    (hcount : k + 1 > L) :
    check_rate_limit [rlCanon ident idType ep L W k ws c u]
        ident idType ep L W t
      = ([rlBlocked ident idType ep L W (k + 1) ws c t (t + 3600)], false,
         "Rate limit exceeded. Blocked until " ++ toString (t + 3600)) := by
  simp [check_rate_limit, cleanup_rate_limits, is_identifier_blocked,
    rlKeyMatch, rlCanon, rlBlocked, updateFirst, List.filter, List.find?,
    hclean, hwin, hcount]

theorem rl_unblock_reset (ident idType : String) (ep : Option String)
    (L W k : Nat) (ws c u b t : Int)
    (hclean : ¬(c < t - 86400)) (hb : ¬(t < b))
    (hwin : t - ws > (W : Int)) (hL : 1 ≤ L) :
    check_rate_limit [rlBlocked ident idType ep L W k ws c u b]
        ident idType ep L W t
      = ([rlCanon ident idType ep L W 1 t c t], true, "Rate limit OK") := by
  have h1 : ¬(1 > L) := by omega
  simp [check_rate_limit, cleanup_rate_limits, is_identifier_blocked,
    rlKeyMatch, rlCanon, rlBlocked, updateFirst, List.filter, List.find?,
    hclean, hb, hwin, h1]

theorem rlRun_steady (ident idType : String) (ep : Option String)
    (L W : Nat) (ws c : Int) :
    ∀ (ts : List Int) (k : Nat) (u : Int), 1 ≤ k → k + ts.length ≤ L →
      (∀ s ∈ ts, ¬(c < s - 86400) ∧ ¬(s - ws > (W : Int))) →
      ∃ u', rlRun ident idType ep L W
          [rlCanon ident idType ep L W k ws c u] ts
        = ([rlCanon ident idType ep L W (k + ts.length) ws c u'],
           List.replicate ts.length true) := by
  intro ts
  induction ts with
  | nil =>
      intro k u _ _ _
      exact ⟨u, by simp [rlRun]⟩
  | cons s ss ih =>
      intro k u hk hlen hts
      have hs := hts s (List.mem_cons_self _ _)
      have hstep := rl_step_incr ident idType ep L W k ws c u s hs.1 hs.2
        (by simp only [List.length_cons] at hlen; omega)
      obtain ⟨u', hrun⟩ := ih (k + 1) s (by omega)
        (by simp only [List.length_cons] at hlen; omega)
        (fun x hx => hts x (List.mem_cons_of_mem _ hx))
      refine ⟨u', ?_⟩
      simp only [rlRun, hstep, hrun, List.length_cons,
        List.replicate_succ]
      have harith : k + 1 + ss.length = k + (ss.length + 1) := by omega
      rw [harith]

/-- C3 fails as stated: with limit 1 and window 10 s, calls at t=0
(allowed) and t=5 (rejected, blocked until 3605) leave a block that
outlives the window, so the first call after window expiry (t=20,
20 − 0 > 10) is still rejected instead of succeeding with a reset
count. -/
theorem c3_counterexample :
    (rlRun "1.2.3.4" "ip" (some "/pay") 1 10 [] [0, 5]).2 = [true, false]
    ∧ ((20 : Int) - 0 > (10 : Nat))
    ∧ (check_rate_limit (rlRun "1.2.3.4" "ip" (some "/pay") 1 10 [] [0, 5]).1
        "1.2.3.4" "ip" (some "/pay") 1 10 20).2.1 = false := by
  refine ⟨by decide, by decide, by decide⟩

/-- C3 (amended): for every key, from empty storage the first L calls
inside the window are allowed (count reaching L), the (L+1)-th call
inside the unexpired window is rejected and sets `is_blocked` with
`blocked_until = now + 1h`; and the first call after the window has
expired succeeds and resets the count to 1, clearing the block —
provided the one-hour block has itself expired, since the block check
runs before the window reset (while the block is unexpired every call
is rejected, part three requires `¬ t < b`). -/
theorem c3_rate_limit_spec (ident idType : String) (ep : Option String)
    (L W : Nat) (t0 : Int) (ts : List Int)
    (hL : 1 ≤ L) (hlen : ts.length = L - 1)
    (hts : ∀ s ∈ ts, ¬(t0 < s - 86400) ∧ ¬(s - t0 > (W : Int))) :
    (∃ u, rlRun ident idType ep L W [] (t0 :: ts)
        = ([rlCanon ident idType ep L W L t0 t0 u],
           List.replicate L true))
    ∧ (∀ (u t : Int), ¬(t0 < t - 86400) → ¬(t - t0 > (W : Int)) →
        check_rate_limit [rlCanon ident idType ep L W L t0 t0 u]
            ident idType ep L W t
          = ([rlBlocked ident idType ep L W (L + 1) t0 t0 t (t + 3600)],
             false,
             "Rate limit exceeded. Blocked until " ++ toString (t + 3600)))
    ∧ (∀ (k : Nat) (u b t : Int),
        ¬(t0 < t - 86400) → ¬(t < b) → t - t0 > (W : Int) →
        check_rate_limit [rlBlocked ident idType ep L W k t0 t0 u b]
            ident idType ep L W t
          = ([rlCanon ident idType ep L W 1 t t0 t], true,
             "Rate limit OK")) := by
  refine ⟨?_, ?_, ?_⟩
  · obtain ⟨u', hrun⟩ := rlRun_steady ident idType ep L W t0 t0 ts 1 t0
      le_rfl (by omega) hts
    refine ⟨u', ?_⟩
    simp only [rlRun, rl_first_call ident idType ep L W t0 hL, hrun]
    have h1 : 1 + ts.length = L := by omega
    have hrep : List.replicate L true
        = true :: List.replicate (L - 1) true := by
      conv_lhs => rw [show L = (L - 1) + 1 by omega]
      rw [List.replicate_succ]
    rw [h1, hlen, hrep]
  · intro u t hclean hwin
    exact rl_step_reject ident idType ep L W L t0 t0 u t hclean hwin
      (by omega)
  · intro k u b t hclean hb hwin
    exact rl_unblock_reset ident idType ep L W k t0 t0 u b t hclean hb
      hwin hL

/-- Witness for C3 (amended): limit 2, window 600 s, calls at 0 and 10,
rejection at 20, successful reset at 4000 (after both window and block
expiry). -/
theorem c3_rate_limit_spec_witness :
    (1 ≤ 2 ∧ [(10 : Int)].length = 2 - 1)
    ∧ check_rate_limit
        [rlBlocked "203.0.113.7" "ip" (some "/payment") 2 600 3 0 0 20 3620]
        "203.0.113.7" "ip" (some "/payment") 2 600 4000
      = ([rlCanon "203.0.113.7" "ip" (some "/payment") 2 600 1 4000 0 4000],
         true, "Rate limit OK") :=
  ⟨⟨by decide, by decide⟩,
   (c3_rate_limit_spec "203.0.113.7" "ip" (some "/payment") 2 600 0 [10]
      (by decide) (by decide)
      (by intro s hs; simp at hs; subst hs; refine ⟨by norm_num, by norm_num⟩)).2.2
     3 20 3620 4000 (by norm_num) (by norm_num) (by norm_num)⟩

/-- C4 fails as stated: with limit 1 on endpoint `/a`, calls at t=0 and
t=1 leave the identifier blocked; the check at t=2 for the *different*
endpoint `/b` is rejected, because `_is_identifier_blocked` filters
only by (identifier, identifier_type). -/
theorem c4_counterexample :
    (rlRun "9.9.9.9" "ip" (some "/a") 1 3600 [] [0, 1]).2 = [true, false]
    ∧ (check_rate_limit (rlRun "9.9.9.9" "ip" (some "/a") 1 3600 [] [0, 1]).1
        "9.9.9.9" "ip" (some "/b") 1 3600 2).2.1 = false := by
  refine ⟨by decide, by decide⟩

/-- C4 (amended): rate-limit *windows* are scoped per (identifier,
identifier_type, endpoint) — a call for a fresh endpoint creates its
own counter at 1, unaffected by the other endpoint's row — but
*blocks* are scoped per (identifier, identifier_type) only: while any
row of the identifier holds an unexpired block, `check_rate_limit` is
rejected for every endpoint. -/
theorem c4_block_scope (ident idType : String) (st : RLState)
    (r : RateRec) (b now : Int) (L W : Nat)
    (hfound : (cleanup_rate_limits now st).find? (fun r =>
        r.identifier == ident && r.identifier_type == idType &&
        r.is_blocked) = some r)
    (hb : r.blocked_until = some b) (hlt : now < b) :
    (∀ ep : Option String,
      check_rate_limit st ident idType ep L W now
        = (cleanup_rate_limits now st, false,
           "Rate limit exceeded - temporarily blocked"))
    ∧ ∀ (ep1 ep2 : Option String) (L' W' : Nat) (t1 t2 : Int),
        ep1 ≠ ep2 → 1 ≤ L' → ¬(t1 < t2 - 86400) →
        check_rate_limit [rlCanon ident idType ep1 L' W' 1 t1 t1 t1]
            ident idType ep2 L' W' t2
          = ([rlCanon ident idType ep1 L' W' 1 t1 t1 t1,
              rlCanon ident idType ep2 L' W' 1 t2 t2 t2], true,
             "Rate limit OK") := by
  constructor
  · intro ep
    simp only [check_rate_limit, is_identifier_blocked, hfound, hb,
      if_pos hlt]
  · intro ep1 ep2 L' W' t1 t2 hne hL' hclean
    have hne' : (ep1 == ep2) = false := beq_eq_false_iff_ne.mpr hne
    have h1 : ¬(1 > L') := by omega
    simp [check_rate_limit, cleanup_rate_limits, is_identifier_blocked,
      rlKeyMatch, rlCanon, updateFirst, List.filter, List.find?,
      hclean, hne', h1]

/-- Witness for C4 (amended): a block acquired via endpoint `/a`
rejects the same IP on endpoint `/b`, while pre-block windows on the
two endpoints are independent. -/
theorem c4_block_scope_witness :
    ((2 : Int) < 3601)
    ∧ check_rate_limit
        [rlBlocked "9.9.9.9" "ip" (some "/a") 1 3600 2 0 0 1 3601]
        "9.9.9.9" "ip" (some "/b") 1 3600 2
      = (cleanup_rate_limits 2
          [rlBlocked "9.9.9.9" "ip" (some "/a") 1 3600 2 0 0 1 3601],
         false, "Rate limit exceeded - temporarily blocked") :=
  ⟨by norm_num,
   (c4_block_scope "9.9.9.9" "ip"
      [rlBlocked "9.9.9.9" "ip" (some "/a") 1 3600 2 0 0 1 3601]
      (rlBlocked "9.9.9.9" "ip" (some "/a") 1 3600 2 0 0 1 3601)
      3601 2 1 3600 (by decide) (by decide) (by norm_num)).1
     (some "/b")⟩

end Mospay
